import Mathlib

/-!
Verification of the landmine/clobber guard (`src/build/landmines.py`) and the
DEPS component scraper (`src/tools/findit/chromium_deps.py`).

The landmine guard is embedded as a pure state-transition function over a small
filesystem state: the content of the `.landmines` marker file (a byte sequence,
modelled as `List Char`, or `none` when the file is absent) and an existence
flag for the build output directory.  Fault injection for `os.makedirs` and
`shutil.rmtree` is carried by a `World` record, so that the error-handling
paths of the Python code can be examined.  Every filesystem effect is recorded
in an event trace so that ordering properties (delete-before-write) are
expressible.
-/

namespace Landmines

/-- A landmine line, as Python sees it: a string, modelled as a character
list.  `clobber_if_necessary` receives a list of such lines. -/
abbrev Line := List Char

/-- Model of Python `file.readlines()` (text mode, `\n` separators): split the
file content into lines, each line keeping its trailing newline; a final
fragment without a newline is returned as-is; an empty file yields `[]`.
First argument is the (reversed) accumulator of the current line. -/
def readlinesAux : List Char → List Char → List Line
  | acc, [] => if acc.isEmpty then [] else [acc.reverse]
  | acc, c :: cs =>
    if c = '\n' then (acc.reverse ++ ['\n']) :: readlinesAux [] cs
    else readlinesAux (c :: acc) cs

/-- Python `f.readlines()` on a file whose content is `content`. -/
def pyReadlines (content : List Char) : List Line :=
  readlinesAux [] content

/-- Python `f.writelines(lines)`: the resulting file content is the plain
concatenation of the lines (no separators are added). -/
def pyWritelines (lines : List Line) : List Char :=
  lines.flatten

/-- The filesystem state the guard touches: the `.landmines` marker file
(`none` = absent, `some c` = present with content `c`) and whether the build
output directory exists. -/
structure FS where
  marker : Option (List Char)
  outDir : Bool
deriving DecidableEq

/-- Filesystem mutation events, recorded in order of occurrence. -/
inductive Event where
  | mkdir
  | rmtree
  | writeMarker (content : List Char)
deriving DecidableEq

/-- Errors that can escape the guard (uncaught Python exceptions). -/
inductive Err where
  | unsupportedBuildTool
  | rmtreeFailed
deriving DecidableEq

/-- `errno.EEXIST`. -/
def EEXIST : Nat := 17

/-- Fault injection: `mkdirErrno = some e` makes `os.makedirs` raise
`OSError` with errno `e`; `none` gives normal OS behaviour (create if absent,
raise `EEXIST` if present).  `rmtreeOk = false` makes `shutil.rmtree` raise. -/
structure World where
  mkdirErrno : Option Nat
  rmtreeOk : Bool
deriving DecidableEq

/-- The `try: os.makedirs(out_dir) except OSError as e: if e.errno ==
errno.EEXIST: pass` block of `clobber_if_necessary`.  Note that the `except`
clause has no `raise`: both branches of the inner `if` fall through, so every
`OSError` is swallowed, not only `EEXIST`. -/
def makedirsStep (w : World) (fs : FS) : FS × List Event :=
  match w.mkdirErrno with
  | some e =>
    if e = EEXIST then (fs, []) else (fs, [])
  | none =>
    if fs.outDir then (fs, [])
    else ({ fs with outDir := true }, [Event.mkdir])

/-- `get_build_dir(build_tool)` of `src/build/landmines.py` (lines 32-51).
`src_dir` stands for `SRC_DIR`; `chromium_out_dir` for
`os.environ.get('CHROMIUM_OUT_DIR')`; `os.path.join` is modelled as
`/`-concatenation (all paths involved are absolute and free of `.`/`..`
segments, so the trailing `os.path.abspath` is the identity); the
`NotImplementedError` raised on an unrecognized generator is
`Err.unsupportedBuildTool`. -/
def get_build_dir (src_dir : String) (chromium_out_dir : Option String)
    (build_tool : String) : Except Err String :=
  if build_tool = "xcode" then
    Except.ok (src_dir ++ "/xcodebuild")
  else if build_tool ∈ ["make", "ninja", "ninja-ios"] then
    Except.ok (src_dir ++ "/" ++ chromium_out_dir.getD "out")
  else if build_tool ∈ ["msvs", "vs", "ib"] then
    Except.ok (src_dir ++ "/build")
  else
    Except.error Err.unsupportedBuildTool

/-- The unconditional tail of `clobber_if_necessary`: `with open(landmines_path,
'w') as f: f.writelines(new_landmines)` — the marker file is created or
truncated and receives the concatenation of the new landmine lines. -/
def saveLandmines (fs : FS) (ev : List Event) (new_landmines : List Line) :
    Option Err × FS × List Event :=
  (none, { fs with marker := some (pyWritelines new_landmines) },
   ev ++ [Event.writeMarker (pyWritelines new_landmines)])

/-- `clobber_if_necessary(new_landmines)` of `src/build/landmines.py`
(lines 54-80).  `build_tool` is the value of `landmine_utils.builder()`
(an external input).  Returns the error (if an exception escaped), the final
filesystem state, and the trace of mutation events in order.  The clobber
branch's `shutil.rmtree(out_dir)` succeeds only when the directory exists and
no fault is injected; its failure is an uncaught exception, so the final
marker write never happens in that case. -/
def clobber_if_necessary (src_dir : String) (chromium_out_dir : Option String)
    (build_tool : String) (w : World) (new_landmines : List Line) (fs : FS) :
    Option Err × FS × List Event :=
  match get_build_dir src_dir chromium_out_dir build_tool with
  | Except.error e => (some e, fs, [])
  | Except.ok _out_dir =>
    let step := makedirsStep w fs
    match step.1.marker with
    | some content =>
      let old_landmines := pyReadlines content
      if old_landmines ≠ new_landmines then
        if w.rmtreeOk && step.1.outDir then
          saveLandmines { step.1 with outDir := false }
            (step.2 ++ [Event.rmtree]) new_landmines
        else
          (some Err.rmtreeFailed, step.1, step.2)
      else
        saveLandmines step.1 step.2 new_landmines
    | none => saveLandmines step.1 step.2 new_landmines

/-- The builders for which `main` returns 0 before doing anything. -/
def skip_builders : List String := ["dump_dependency_json", "eclipse"]

/-- `main()` of `src/build/landmines.py` (lines 113-128), with the landmine
collection abstracted into the `landmines` argument (it has no filesystem
effect) and `landmine_utils.builder()` as the `builder` argument.  Returns the
process outcome (`Except.ok 0` on success; an uncaught exception otherwise),
the final filesystem state and the event trace. -/
def main (src_dir : String) (chromium_out_dir : Option String)
    (builder : String) (landmines : List Line) (w : World) (fs : FS) :
    Except Err Nat × FS × List Event :=
  if builder ∈ skip_builders then (Except.ok 0, fs, [])
  else
    match clobber_if_necessary src_dir chromium_out_dir builder w landmines fs with
    | (none, fs', tr) => (Except.ok 0, fs', tr)
    | (some e, fs', tr) => (Except.error e, fs', tr)

/-- A well-formed landmine line, as produced by `main` (`'%s\n' % l.strip()`):
some newline-free text followed by exactly one newline. -/
def GoodLine (l : Line) : Prop :=
  ∃ s : List Char, l = s ++ ['\n'] ∧ '\n' ∉ s

theorem readlinesAux_line (s : List Char) (hs : '\n' ∉ s) (acc cs : List Char) :
    readlinesAux acc (s ++ '\n' :: cs) =
      ((acc.reverse ++ s) ++ ['\n']) :: readlinesAux [] cs := by
  induction s generalizing acc with
  | nil => simp [readlinesAux]
  | cons c s ih =>
    have hc : ¬ c = '\n' := fun h => hs (by simp [h])
    have hs' : '\n' ∉ s := fun h => hs (List.mem_cons_of_mem _ h)
    simp only [List.cons_append, readlinesAux, if_neg hc]
    rw [show s.append ('\n' :: cs) = s ++ '\n' :: cs from rfl, ih hs']
    simp

/-- Round trip: a marker written with `writelines` from well-formed lines is
read back by `readlines` as the same list of lines. -/
theorem pyReadlines_pyWritelines (lines : List Line)
    (h : ∀ l ∈ lines, GoodLine l) :
    pyReadlines (pyWritelines lines) = lines := by
  induction lines with
  | nil => rfl
  | cons l ls ih =>
    obtain ⟨s, hl, hs⟩ := h l (List.mem_cons_self l ls)
    have : pyWritelines (l :: ls) = s ++ '\n' :: pyWritelines ls := by
      simp [pyWritelines, hl]
    rw [this]
    show readlinesAux [] (s ++ '\n' :: pyWritelines ls) = l :: ls
    rw [readlinesAux_line s hs]
    rw [show readlinesAux [] (pyWritelines ls) = pyReadlines (pyWritelines ls) from rfl]
    rw [ih fun x hx => h x (List.mem_cons_of_mem _ hx)]
    simp [hl]

theorem makedirsStep_marker (w : World) (fs : FS) :
    (makedirsStep w fs).1.marker = fs.marker := by
  unfold makedirsStep
  rcases w.mkdirErrno with _ | e <;> simp only [] <;> split <;> rfl

theorem makedirsStep_events (w : World) (fs : FS) :
    (makedirsStep w fs).2 = [] ∨ (makedirsStep w fs).2 = [Event.mkdir] := by
  unfold makedirsStep
  rcases w.mkdirErrno with _ | e <;> simp only [] <;> split <;> simp

theorem makedirsStep_no_rmtree (w : World) (fs : FS) :
    Event.rmtree ∉ (makedirsStep w fs).2 := by
  rcases makedirsStep_events w fs with h | h <;> rw [h] <;> simp

theorem makedirsStep_no_write (w : World) (fs : FS) (c : List Char) :
    Event.writeMarker c ∉ (makedirsStep w fs).2 := by
  rcases makedirsStep_events w fs with h | h <;> rw [h] <;> simp

theorem makedirsStep_outDir (w : World) (fs : FS) (h : w.mkdirErrno = none) :
    (makedirsStep w fs).1.outDir = true := by
  unfold makedirsStep
  rw [h]
  by_cases hd : fs.outDir = true <;> simp [hd]

theorem run_gb_error {src env bt e} (w : World) (new : List Line) (fs : FS)
    (hgb : get_build_dir src env bt = Except.error e) :
    clobber_if_necessary src env bt w new fs = (some e, fs, []) := by
  unfold clobber_if_necessary
  rw [hgb]

theorem run_marker_none {src env bt d} (w : World) (new : List Line) (fs : FS)
    (hgb : get_build_dir src env bt = Except.ok d) (hm : fs.marker = none) :
    clobber_if_necessary src env bt w new fs =
      (none, { (makedirsStep w fs).1 with marker := some (pyWritelines new) },
       (makedirsStep w fs).2 ++ [Event.writeMarker (pyWritelines new)]) := by
  unfold clobber_if_necessary
  rw [hgb]
  simp only [makedirsStep_marker w fs, hm]
  rfl

theorem run_marker_eq {src env bt d content} (w : World) (new : List Line)
    (fs : FS) (hgb : get_build_dir src env bt = Except.ok d)
    (hm : fs.marker = some content) (he : pyReadlines content = new) :
    clobber_if_necessary src env bt w new fs =
      (none, { (makedirsStep w fs).1 with marker := some (pyWritelines new) },
       (makedirsStep w fs).2 ++ [Event.writeMarker (pyWritelines new)]) := by
  unfold clobber_if_necessary
  rw [hgb]
  simp only [makedirsStep_marker w fs, hm]
  simp [saveLandmines, he]

theorem run_clobber {src env bt d content} (w : World) (new : List Line)
    (fs : FS) (hgb : get_build_dir src env bt = Except.ok d)
    (hm : fs.marker = some content) (hne : pyReadlines content ≠ new)
    (hok : (w.rmtreeOk && (makedirsStep w fs).1.outDir) = true) :
    clobber_if_necessary src env bt w new fs =
      (none, ⟨some (pyWritelines new), false⟩,
       (makedirsStep w fs).2 ++ [Event.rmtree, Event.writeMarker (pyWritelines new)]) := by
  unfold clobber_if_necessary
  rw [hgb]
  simp only [makedirsStep_marker w fs, hm]
  simp [saveLandmines, hne, hok]

theorem run_clobber_fail {src env bt d content} (w : World) (new : List Line)
    (fs : FS) (hgb : get_build_dir src env bt = Except.ok d)
    (hm : fs.marker = some content) (hne : pyReadlines content ≠ new)
    (hbad : (w.rmtreeOk && (makedirsStep w fs).1.outDir) = false) :
    clobber_if_necessary src env bt w new fs =
      (some Err.rmtreeFailed, (makedirsStep w fs).1, (makedirsStep w fs).2) := by
  unfold clobber_if_necessary
  rw [hgb]
  simp only [makedirsStep_marker w fs, hm]
  simp [hne, hbad]

/-- Every successful run ends with the marker holding the `writelines` of the
new landmine list. -/
theorem run_success_marker {src env bt} (w : World) (new : List Line) (fs : FS)
    (h : (clobber_if_necessary src env bt w new fs).1 = none) :
    (clobber_if_necessary src env bt w new fs).2.1.marker =
      some (pyWritelines new) := by
  rcases hgb : get_build_dir src env bt with e | d
  · rw [run_gb_error w new fs hgb] at h
    simp at h
  · rcases hm : fs.marker with _ | content
    · rw [run_marker_none w new fs hgb hm]
    · by_cases he : pyReadlines content = new
      · rw [run_marker_eq w new fs hgb hm he]
      · rcases hok : w.rmtreeOk && (makedirsStep w fs).1.outDir with _ | _
        · rw [run_clobber_fail w new fs hgb hm he hok] at h
          simp at h
        · rw [run_clobber w new fs hgb hm he hok]

/-- C1 (counterexample): the claim "after a successful invocation the build
output directory exists — freshly created if it was just clobbered" is false.
With marker content `"x\n"` and `newLandmines = ["y\n"]`, the run succeeds,
rewrites the marker, but leaves the output directory deleted: `makedirs` runs
before the clobber check and nothing recreates the directory after
`shutil.rmtree`. -/
theorem clobber_success_outdir_missing :
    ¬ ((clobber_if_necessary "/src" none "ninja" ⟨none, true⟩ [['y', '\n']]
          ⟨some ['x', '\n'], true⟩).1 = none →
       (clobber_if_necessary "/src" none "ninja" ⟨none, true⟩ [['y', '\n']]
          ⟨some ['x', '\n'], true⟩).2.1.outDir = true) := by decide

/-- C1 (amended): after any successful invocation (with `os.makedirs`
behaving normally), the marker file's content is exactly
`writelines(newLandmines)`, and the build output directory exists if and only
if no clobber occurred — a clobbering run deletes it and leaves it absent. -/
theorem clobber_success_invariant (src : String) (env : Option String)
    (bt : String) (w : World) (new : List Line) (fs fs' : FS) (tr : List Event)
    (hmk : w.mkdirErrno = none)
    (hrun : clobber_if_necessary src env bt w new fs = (none, fs', tr)) :
    fs'.marker = some (pyWritelines new) ∧
      (fs'.outDir = true ↔ Event.rmtree ∉ tr) := by
  rcases hgb : get_build_dir src env bt with e | d
  · rw [run_gb_error w new fs hgb] at hrun
    simp at hrun
  · rcases hm : fs.marker with _ | content
    · rw [run_marker_none w new fs hgb hm] at hrun
      simp only [Prod.mk.injEq, true_and] at hrun
      obtain ⟨h1, h2⟩ := hrun
      subst h1; subst h2
      refine ⟨rfl, ?_⟩
      simp [makedirsStep_outDir w fs hmk, makedirsStep_no_rmtree w fs]
    · by_cases he : pyReadlines content = new
      · rw [run_marker_eq w new fs hgb hm he] at hrun
        simp only [Prod.mk.injEq, true_and] at hrun
        obtain ⟨h1, h2⟩ := hrun
        subst h1; subst h2
        refine ⟨rfl, ?_⟩
        simp [makedirsStep_outDir w fs hmk, makedirsStep_no_rmtree w fs]
      · cases hok : (w.rmtreeOk && (makedirsStep w fs).1.outDir) with
        | false =>
          rw [run_clobber_fail w new fs hgb hm he hok] at hrun
          simp at hrun
        | true =>
          rw [run_clobber w new fs hgb hm he hok] at hrun
          simp only [Prod.mk.injEq, true_and] at hrun
          obtain ⟨h1, h2⟩ := hrun
          subst h1; subst h2
          refine ⟨rfl, ?_⟩
          simp

/-- C1 (witness): a concrete first run on an absent marker succeeds, leaves
the marker equal to the written landmines and the directory in place. -/
theorem clobber_success_invariant_witness :
    (⟨some ['a', '\n'], true⟩ : FS).marker = some (pyWritelines [['a', '\n']]) ∧
      ((⟨some ['a', '\n'], true⟩ : FS).outDir = true ↔
        Event.rmtree ∉ [Event.mkdir, Event.writeMarker ['a', '\n']]) :=
  clobber_success_invariant "/src" none "ninja" ⟨none, true⟩ [['a', '\n']]
    ⟨none, false⟩ ⟨some ['a', '\n'], true⟩
    [Event.mkdir, Event.writeMarker ['a', '\n']] rfl (by decide)

/-- C2: whenever the marker's line sequence differs from `newLandmines` and
the run succeeds, the trace ends with the recursive deletion of the output
directory immediately followed by the marker rewrite; no deletion or marker
write occurs earlier in the trace. -/
theorem clobber_delete_before_write (src : String) (env : Option String)
    (bt : String) (w : World) (new : List Line) (fs fs' : FS) (tr : List Event)
    (content : List Char) (hm : fs.marker = some content)
    (hne : pyReadlines content ≠ new)
    (hrun : clobber_if_necessary src env bt w new fs = (none, fs', tr)) :
    ∃ pre, tr = pre ++ [Event.rmtree, Event.writeMarker (pyWritelines new)] ∧
      Event.rmtree ∉ pre ∧ ∀ c, Event.writeMarker c ∉ pre := by
  rcases hgb : get_build_dir src env bt with e | d
  · rw [run_gb_error w new fs hgb] at hrun
    simp at hrun
  · cases hok : (w.rmtreeOk && (makedirsStep w fs).1.outDir) with
    | false =>
      rw [run_clobber_fail w new fs hgb hm hne hok] at hrun
      simp at hrun
    | true =>
      rw [run_clobber w new fs hgb hm hne hok] at hrun
      simp only [Prod.mk.injEq, true_and] at hrun
      obtain ⟨h1, h2⟩ := hrun
      subst h2
      exact ⟨(makedirsStep w fs).2, rfl, makedirsStep_no_rmtree w fs,
        fun c => makedirsStep_no_write w fs c⟩

/-- C2 (witness): marker `"x\n"` against `newLandmines = ["y\n"]`. -/
theorem clobber_delete_before_write_witness :
    pyReadlines ['x', '\n'] ≠ [['y', '\n']] ∧
      ∃ pre, [Event.rmtree, Event.writeMarker (pyWritelines [['y', '\n']])] =
          pre ++ [Event.rmtree, Event.writeMarker (pyWritelines [['y', '\n']])] ∧
        Event.rmtree ∉ pre ∧ ∀ c, Event.writeMarker c ∉ pre :=
  ⟨by decide,
   clobber_delete_before_write "/src" none "ninja" ⟨none, true⟩ [['y', '\n']]
     ⟨some ['x', '\n'], true⟩ ⟨some ['y', '\n'], false⟩
     [Event.rmtree, Event.writeMarker ['y', '\n']] ['x', '\n'] rfl (by decide)
     (by decide)⟩

/-- C3 (counterexample): with `newLandmines = []` and the marker absent, the
claim "no side effects at all" is false: the run still writes the marker file
(creating it with empty content). -/
theorem clobber_empty_still_writes :
    clobber_if_necessary "/src" none "ninja" ⟨none, true⟩ [] ⟨none, true⟩ =
      (none, ⟨some [], true⟩, [Event.writeMarker []]) ∧
    (⟨some [], true⟩ : FS) ≠ ⟨none, true⟩ := by decide

/-- C3 (amended): with empty `newLandmines` and an absent or empty marker, no
clobber (directory deletion) occurs, but the directory is still created if it
was missing and the marker file is still written: afterwards the marker exists
with empty content and the output directory exists. -/
theorem clobber_empty_no_clobber (src : String) (env : Option String)
    (bt d : String) (w : World) (fs : FS)
    (hgb : get_build_dir src env bt = Except.ok d)
    (hmk : w.mkdirErrno = none)
    (hm : fs.marker = none ∨ fs.marker = some []) :
    clobber_if_necessary src env bt w [] fs =
      (none, ⟨some [], true⟩, (makedirsStep w fs).2 ++ [Event.writeMarker []]) ∧
    Event.rmtree ∉ (makedirsStep w fs).2 ++ [Event.writeMarker ([] : List Char)] := by
  have hd := makedirsStep_outDir w fs hmk
  constructor
  · rcases hm with hm | hm
    · rw [run_marker_none w [] fs hgb hm]
      simp [hd, pyWritelines]
    · rw [run_marker_eq w [] fs hgb hm rfl]
      simp [hd, pyWritelines]
  · simp [makedirsStep_no_rmtree w fs]

/-- C3 (witness): concrete instance of the amended statement, with the output
directory initially missing, hence freshly created. -/
theorem clobber_empty_no_clobber_witness :
    clobber_if_necessary "/s" none "ninja" ⟨none, true⟩ [] ⟨none, false⟩ =
      (none, ⟨some [], true⟩,
        (makedirsStep ⟨none, true⟩ ⟨none, false⟩).2 ++ [Event.writeMarker []]) ∧
    Event.rmtree ∉ (makedirsStep ⟨none, true⟩ ⟨none, false⟩).2 ++
        [Event.writeMarker ([] : List Char)] :=
  clobber_empty_no_clobber "/s" none "ninja" "/s/out" ⟨none, true⟩ ⟨none, false⟩
    rfl rfl (Or.inl rfl)

/-- C4 (code evaluated at the failing input): when `os.makedirs` raises
`OSError` with errno 13 (`EACCES`, not `EEXIST`), `clobber_if_necessary`
nevertheless returns successfully — the `except OSError` clause only tests
`e.errno == errno.EEXIST` and falls through without re-raising in both
branches, so the error is silently swallowed and the run continues with the
output directory still absent.  The spec says any non-`EEXIST` creation
failure is fatal. -/
theorem clobber_mkdir_error_swallowed :
    clobber_if_necessary "/src" none "ninja" ⟨some 13, true⟩ [['a', '\n']]
        ⟨none, false⟩ =
      (none, ⟨some ['a', '\n'], false⟩, [Event.writeMarker ['a', '\n']]) := by
  decide

/-- C5: if deleting the output directory fails on a changed-landmines run,
the operation aborts with the deletion error, the marker still holds its
pre-change content, and the marker rewrite never happened. -/
theorem clobber_delete_failure_keeps_marker (src : String)
    (env : Option String) (bt d : String) (w : World) (new : List Line)
    (fs : FS) (content : List Char)
    (hgb : get_build_dir src env bt = Except.ok d)
    (hm : fs.marker = some content)
    (hne : pyReadlines content ≠ new)
    (hrt : w.rmtreeOk = false) :
    (clobber_if_necessary src env bt w new fs).1 = some Err.rmtreeFailed ∧
    (clobber_if_necessary src env bt w new fs).2.1.marker = some content ∧
    Event.writeMarker (pyWritelines new) ∉
      (clobber_if_necessary src env bt w new fs).2.2 := by
  have hbad : (w.rmtreeOk && (makedirsStep w fs).1.outDir) = false := by
    simp [hrt]
  rw [run_clobber_fail w new fs hgb hm hne hbad]
  exact ⟨rfl, (makedirsStep_marker w fs).trans hm,
    makedirsStep_no_write w fs _⟩

/-- C5 (witness): marker `"x\n"`, `newLandmines = ["y\n"]`, deletion fault
injected. -/
theorem clobber_delete_failure_keeps_marker_witness :
    pyReadlines ['x', '\n'] ≠ [['y', '\n']] ∧
    ((clobber_if_necessary "/src" none "ninja" ⟨none, false⟩ [['y', '\n']]
        ⟨some ['x', '\n'], true⟩).1 = some Err.rmtreeFailed ∧
     (clobber_if_necessary "/src" none "ninja" ⟨none, false⟩ [['y', '\n']]
        ⟨some ['x', '\n'], true⟩).2.1.marker = some ['x', '\n'] ∧
     Event.writeMarker (pyWritelines [['y', '\n']]) ∉
       (clobber_if_necessary "/src" none "ninja" ⟨none, false⟩ [['y', '\n']]
         ⟨some ['x', '\n'], true⟩).2.2) :=
  ⟨by decide,
   clobber_delete_failure_keeps_marker "/src" none "ninja" "/src/out"
     ⟨none, false⟩ [['y', '\n']] ⟨some ['x', '\n'], true⟩ ['x', '\n'] rfl rfl
     (by decide) rfl⟩

/-- C6: the clobber decision is exact sequence equality — two stored/new line
lists that are permutations of each other but not equal as sequences count as
a difference, and a successful run on them performs the clobber. -/
theorem clobber_permutation_triggers (src : String) (env : Option String)
    (bt : String) (w : World) (new old : List Line) (content : List Char)
    (fs fs' : FS) (tr : List Event)
    (hm : fs.marker = some content)
    (hold : pyReadlines content = old)
    (hperm : old.Perm new) (hne : old ≠ new)
    (hrun : clobber_if_necessary src env bt w new fs = (none, fs', tr)) :
    Event.rmtree ∈ tr := by
  have hne' : pyReadlines content ≠ new := by rw [hold]; exact hne
  rcases hgb : get_build_dir src env bt with e | d
  · rw [run_gb_error w new fs hgb] at hrun
    simp at hrun
  · cases hok : (w.rmtreeOk && (makedirsStep w fs).1.outDir) with
    | false =>
      rw [run_clobber_fail w new fs hgb hm hne' hok] at hrun
      simp at hrun
    | true =>
      rw [run_clobber w new fs hgb hm hne' hok] at hrun
      simp only [Prod.mk.injEq, true_and] at hrun
      obtain ⟨h1, h2⟩ := hrun
      subst h2
      simp

/-- C6 (witness): stored `["a\n","b\n"]` against new `["b\n","a\n"]`. -/
theorem clobber_permutation_triggers_witness :
    pyReadlines ['a', '\n', 'b', '\n'] = [['a', '\n'], ['b', '\n']] ∧
    Event.rmtree ∈
      [Event.rmtree, Event.writeMarker (pyWritelines [['b', '\n'], ['a', '\n']])] :=
  ⟨by decide,
   clobber_permutation_triggers "/src" none "ninja" ⟨none, true⟩
     [['b', '\n'], ['a', '\n']] [['a', '\n'], ['b', '\n']]
     ['a', '\n', 'b', '\n'] ⟨some ['a', '\n', 'b', '\n'], true⟩
     ⟨some ['b', '\n', 'a', '\n'], false⟩
     [Event.rmtree, Event.writeMarker ['b', '\n', 'a', '\n']]
     rfl (by decide) (List.Perm.swap _ _ _) (by decide) (by decide)⟩

/-- C7 (counterexample): the claim quantifies over arbitrary `newLandmines`
lists, but for lines lacking trailing newlines the `writelines`/`readlines`
round trip does not return the original list, so the second identical call
does clobber.  With `newLandmines = ["a", "b"]` the first call stores `"ab"`,
the second call reads it back as `["ab"] ≠ ["a", "b"]` and deletes the
output directory. -/
theorem clobber_repeat_no_newline_clobbers :
    Event.rmtree ∈
      (clobber_if_necessary "/s" none "ninja" ⟨none, true⟩ [['a'], ['b']]
        (clobber_if_necessary "/s" none "ninja" ⟨none, true⟩ [['a'], ['b']]
          ⟨none, true⟩).2.1).2.2 := by decide

/-- C7 (amended): for `newLandmines` in the line format the program produces
(every line some newline-free text followed by exactly one `'\n'`), a second
call with the same list performs no clobber, succeeds, and leaves the marker
holding exactly `writelines(newLandmines)`, which `readlines` reads back as
`newLandmines`. -/
theorem clobber_idempotent (src : String) (env : Option String) (bt : String)
    (w : World) (new : List Line) (fs : FS)
    (hgood : ∀ l ∈ new, GoodLine l)
    (h1 : (clobber_if_necessary src env bt w new fs).1 = none) :
    Event.rmtree ∉ (clobber_if_necessary src env bt w new
        (clobber_if_necessary src env bt w new fs).2.1).2.2 ∧
    (clobber_if_necessary src env bt w new
        (clobber_if_necessary src env bt w new fs).2.1).1 = none ∧
    (clobber_if_necessary src env bt w new
        (clobber_if_necessary src env bt w new fs).2.1).2.1.marker =
      some (pyWritelines new) ∧
    pyReadlines (pyWritelines new) = new := by
  have hrt := pyReadlines_pyWritelines new hgood
  have hgb : ∃ d, get_build_dir src env bt = Except.ok d := by
    rcases hgbe : get_build_dir src env bt with e | d
    · rw [run_gb_error w new fs hgbe] at h1
      simp at h1
    · exact ⟨d, rfl⟩
  obtain ⟨d, hgb⟩ := hgb
  have hm1 : (clobber_if_necessary src env bt w new fs).2.1.marker =
      some (pyWritelines new) := run_success_marker w new fs h1
  rw [run_marker_eq w new _ hgb hm1 hrt]
  refine ⟨?_, rfl, rfl, hrt⟩
  simp [makedirsStep_no_rmtree]

/-- C7 (witness): two runs with `newLandmines = ["a\n"]` starting from an
absent marker. -/
theorem clobber_idempotent_witness :
    Event.rmtree ∉ (clobber_if_necessary "/s" none "ninja" ⟨none, true⟩
        [['a', '\n']] (clobber_if_necessary "/s" none "ninja" ⟨none, true⟩
          [['a', '\n']] ⟨none, false⟩).2.1).2.2 ∧
    (clobber_if_necessary "/s" none "ninja" ⟨none, true⟩ [['a', '\n']]
        (clobber_if_necessary "/s" none "ninja" ⟨none, true⟩ [['a', '\n']]
          ⟨none, false⟩).2.1).1 = none ∧
    (clobber_if_necessary "/s" none "ninja" ⟨none, true⟩ [['a', '\n']]
        (clobber_if_necessary "/s" none "ninja" ⟨none, true⟩ [['a', '\n']]
          ⟨none, false⟩).2.1).2.1.marker = some (pyWritelines [['a', '\n']]) ∧
    pyReadlines (pyWritelines [['a', '\n']]) = [['a', '\n']] :=
  clobber_idempotent "/s" none "ninja" ⟨none, true⟩ [['a', '\n']]
    ⟨none, false⟩
    (fun l hl => by
      simp only [List.mem_singleton] at hl
      subst hl
      exact ⟨['a'], rfl, by decide⟩)
    (by decide)

/-- C8: the build-tool → output-directory mapping is the fixed case-sensitive
one: `xcode ↦ <root>/xcodebuild`; `make`/`ninja`/`ninja-ios` ↦
`<root>/<CHROMIUM_OUT_DIR or "out">`; `msvs`/`vs`/`ib` ↦ `<root>/build`;
every other identifier fails with the unsupported-build-tool error, and that
failure leaves the filesystem untouched (no events, state unchanged). -/
theorem build_dir_mapping (src : String) (env : Option String) (bt : String)
    (w : World) (new : List Line) (fs : FS) :
    get_build_dir src env "xcode" = Except.ok (src ++ "/xcodebuild") ∧
    (bt ∈ ["make", "ninja", "ninja-ios"] →
      get_build_dir src env bt = Except.ok (src ++ "/" ++ env.getD "out")) ∧
    (bt ∈ ["msvs", "vs", "ib"] →
      get_build_dir src env bt = Except.ok (src ++ "/build")) ∧
    (bt ∉ ["xcode", "make", "ninja", "ninja-ios", "msvs", "vs", "ib"] →
      get_build_dir src env bt = Except.error Err.unsupportedBuildTool ∧
      clobber_if_necessary src env bt w new fs =
        (some Err.unsupportedBuildTool, fs, [])) := by
  refine ⟨rfl, ?_, ?_, ?_⟩
  · intro h
    simp only [List.mem_cons, List.mem_singleton, List.not_mem_nil,
      or_false] at h
    rcases h with rfl | rfl | rfl <;> rfl
  · intro h
    simp only [List.mem_cons, List.mem_singleton, List.not_mem_nil,
      or_false] at h
    rcases h with rfl | rfl | rfl <;> rfl
  · intro h
    simp only [List.mem_cons, List.not_mem_nil, or_false, not_or] at h
    obtain ⟨h1, h2, h3, h4, h5, h6, h7⟩ := h
    have hx : get_build_dir src env bt = Except.error Err.unsupportedBuildTool := by
      simp [get_build_dir, h1, h2, h3, h4, h5, h6, h7]
    exact ⟨hx, run_gb_error w new fs hx⟩

/-- C8 (witness): `ninja` resolves through the environment override; the
unrecognized identifier `gn` fails before any filesystem mutation. -/
theorem build_dir_mapping_witness :
    get_build_dir "/root" (some "o") "ninja" =
      Except.ok ("/root" ++ "/" ++ (some "o").getD "out") ∧
    (get_build_dir "/root" (some "o") "gn" =
       Except.error Err.unsupportedBuildTool ∧
     clobber_if_necessary "/root" (some "o") "gn" ⟨none, true⟩ [] ⟨none, true⟩ =
       (some Err.unsupportedBuildTool, ⟨none, true⟩, [])) :=
  ⟨(build_dir_mapping "/root" (some "o") "ninja" ⟨none, true⟩ []
      ⟨none, true⟩).2.1 (by decide),
   (build_dir_mapping "/root" (some "o") "gn" ⟨none, true⟩ []
      ⟨none, true⟩).2.2.2 (by decide)⟩

/-- C9: for the skip-category builders `dump_dependency_json` and `eclipse`,
`main` returns success (exit code 0) immediately: the filesystem state is
returned unchanged and the event trace is empty — the marker is untouched and
no directory is created or deleted. -/
theorem main_skip_builders (src : String) (env : Option String)
    (builder : String) (landmines : List Line) (w : World) (fs : FS)
    (h : builder = "dump_dependency_json" ∨ builder = "eclipse") :
    main src env builder landmines w fs = (Except.ok 0, fs, []) := by
  have hmem : builder ∈ skip_builders := by
    rcases h with rfl | rfl <;> simp [skip_builders]
  unfold main
  rw [if_pos hmem]

/-- C9 (witness): an `eclipse` invocation with a present marker and existing
output directory leaves everything untouched and exits 0. -/
theorem main_skip_builders_witness :
    main "/src" none "eclipse" [['a', '\n']] ⟨none, true⟩
        ⟨some ['x', '\n'], true⟩ =
      (Except.ok 0, ⟨some ['x', '\n'], true⟩, []) :=
  main_skip_builders "/src" none "eclipse" [['a', '\n']] ⟨none, true⟩
    ⟨some ['x', '\n'], true⟩ (Or.inr rfl)

end Landmines

/-!
Embedding of `GetChromiumComponents` from `src/tools/findit/chromium_deps.py`.

Python strings are modelled as character lists (`PyStr`) so that every string
operation the code performs (`split`, `startswith`, `endswith`, `lower`,
slicing, `'_'.join`) is a structurally recursive Lean function with Python's
semantics.  The pieces of the function that are external to the repository
are parameters: `utils.IsGitHash` (from `common/utils`, not under `src/`) is
an opaque predicate argument, the values read from `deps_config.json` are a
`Config` record, and the DEPS download / base64 decode / `exec`-based
`_ParseDEPS` pipeline is abstracted into the `deps` and `deps_os`
dictionaries it produces (the claim quantifies over every input on which the
function succeeds, which is exactly quantification over those dictionaries).
Python dictionaries are association lists with unique keys, built only
through `dictSet` (Python `m[k] = v`) and read through `dictGet`
(Python `m[k]` / `m.get(k)`); iteration order is insertion order.
-/

namespace Deps

/-- A Python string, as a list of characters. -/
abbrev PyStr := List Char

/-- Python `s.split(sep)` for a one-character separator: split at every
occurrence, keeping empty pieces; always returns at least one piece. -/
def pySplit (sep : Char) : PyStr → List PyStr
  | [] => [[]]
  | c :: cs =>
    if c = sep then [] :: pySplit sep cs
    else
      match pySplit sep cs with
      | [] => [[c]]
      | p :: ps => (c :: p) :: ps

/-- Python `s.endswith(c)` for a one-character suffix: the last character is
`c`. -/
def pyEndsWith (s : PyStr) (c : Char) : Bool :=
  s.getLast? == some c

/-- Python `s.lower()`. -/
def pyLower (s : PyStr) : PyStr :=
  s.map Char.toLower

/-- Python `dict` assignment `m[k] = v`: replace the value at an existing
key in place, or append a new binding. -/
def dictSet {κ α : Type} [DecidableEq κ] : List (κ × α) → κ → α → List (κ × α)
  | [], k, v => [(k, v)]
  | (k', v') :: rest, k, v =>
    if k' = k then (k, v) :: rest else (k', v') :: dictSet rest k v

/-- Python `dict` read `m.get(k)`. -/
def dictGet {κ α : Type} [DecidableEq κ] : List (κ × α) → κ → Option α
  | [], _ => none
  | (k', v') :: rest, k => if k' = k then some v' else dictGet rest k

/-- Python `dict.update(adds)`: assign every binding of `adds` in order. -/
def dictUpdate {κ α : Type} [DecidableEq κ] (m adds : List (κ × α)) :
    List (κ × α) :=
  adds.foldl (fun acc p => dictSet acc p.1 p.2) m

/-- The fields of `deps_config.json` that `GetChromiumComponents` reads. -/
structure Config where
  git_base_url : PyStr
  svn_base_url : PyStr
  svn_src_chromium_url : PyStr
  host_directories : List PyStr

/-- One entry of the map returned by `GetChromiumComponents`. -/
structure Component where
  path : PyStr
  name : PyStr
  repository : PyStr
  repository_type : PyStr
  revision : PyStr
deriving DecidableEq

/-- `_GetComponentName(path, host_dirs)` of
`src/tools/findit/chromium_deps.py` (lines 48-64): strip the first matching
host-directory prefix and take the lowercased first path segment, renaming
`webkit` to `blink`; for a path under no host directory, join all segments
with `'_'`. -/
def _GetComponentName (path : PyStr) (host_dirs : List PyStr) : PyStr :=
  match host_dirs.find? (fun host_dir => host_dir.isPrefixOf path) with
  | some host_dir =>
    let stripped := path.drop host_dir.length
    let name := pyLower ((pySplit '/' stripped).headD [])
    if name = "webkit".data then "blink".data else name
  | none => List.intercalate ['_'] (pySplit '/' path)

/-- `repository, revision = all_deps[component_path].split('@')`: succeeds
exactly when the value holds exactly one `'@'`; otherwise Python raises
`ValueError`. -/
def splitRepoRevision (s : PyStr) : Option (PyStr × PyStr) :=
  match pySplit '@' s with
  | [a, b] => some (a, b)
  | _ => none

/-- One iteration of the `for component_path in all_deps` loop of
`GetChromiumComponents` (lines 122-143): returns the key added to
`components`, the component record stored under it, and the loop's new value
of the (rebound) `is_git_hash` variable. -/
def buildComponent (cfg : Config) (isGitHash : PyStr → Bool)
    (component_path value : PyStr) : Option (PyStr × Component × Bool) :=
  match splitRepoRevision value with
  | none => none
  | some (repository, revision) =>
    let name := _GetComponentName component_path cfg.host_directories
    let is_git_hash := isGitHash revision
    let repository :=
      if List.isPrefixOf ['/'] repository then
        cfg.svn_src_chromium_url ++ repository
      else repository
    let repository_type : PyStr := if is_git_hash then "git".data else "svn".data
    let component_path :=
      if pyEndsWith component_path '/' then component_path
      else component_path ++ ['/']
    some (component_path,
      ⟨component_path, name, repository, repository_type, revision⟩,
      is_git_hash)

/-- The whole component-building loop, threading the `components` dictionary
and the rebound `is_git_hash` variable; `none` models an uncaught
`ValueError` from the `split('@')` unpacking. -/
def componentsLoop (cfg : Config) (isGitHash : PyStr → Bool) :
    List (PyStr × Component) × Bool → List (PyStr × PyStr) →
    Option (List (PyStr × Component) × Bool)
  | acc, [] => some acc
  | acc, (component_path, value) :: rest =>
    match buildComponent cfg isGitHash component_path value with
    | none => none
    | some (key, comp, igh) =>
      componentsLoop cfg isGitHash (dictSet acc.1 key comp, igh) rest

/-- `all_deps`: `deps` updated with the per-OS dictionary for the (already
normalized) platform. -/
def allDeps (os_platform : PyStr) (deps : List (PyStr × PyStr))
    (deps_os : List (PyStr × List (PyStr × PyStr))) : List (PyStr × PyStr) :=
  dictUpdate deps ((dictGet deps_os os_platform).getD [])

/-- The tail of `GetChromiumComponents` (lines 145-161): add chromium itself
as component `src/`, choosing the repository from the final value of the
`is_git_hash` variable. -/
def addChromium (cfg : Config) (chromium_revision : PyStr)
    (acc : List (PyStr × Component) × Bool) : List (PyStr × Component) :=
  let repository := if acc.2 then cfg.git_base_url else cfg.svn_base_url
  let repository_type : PyStr := if acc.2 then "git".data else "svn".data
  dictSet acc.1 "src/".data
    ⟨"src/".data, "chromium".data, repository, repository_type,
      chromium_revision⟩

/-- `GetChromiumComponents(chromium_revision, os_platform, ...)` of
`src/tools/findit/chromium_deps.py` (lines 119-161), from the point where
the DEPS file has been downloaded and parsed into `deps` / `deps_os`. -/
def GetChromiumComponents (cfg : Config) (isGitHash : PyStr → Bool)
    (chromium_revision os_platform : PyStr)
    (deps : List (PyStr × PyStr))
    (deps_os : List (PyStr × List (PyStr × PyStr))) :
    Option (List (PyStr × Component)) :=
  let os_platform :=
    if pyLower os_platform = "linux".data then "unix".data else os_platform
  let is_git_hash := isGitHash chromium_revision
  (componentsLoop cfg isGitHash ([], is_git_hash)
      (allDeps os_platform deps deps_os)).map
    (addChromium cfg chromium_revision)

theorem pyEndsWith_append_slash (s : PyStr) :
    pyEndsWith (s ++ ['/']) '/' = true := by
  unfold pyEndsWith
  rw [List.getLast?_concat]
  rfl

theorem dictSet_mem {κ α : Type} [DecidableEq κ] (m : List (κ × α)) (k : κ)
    (v : α) (p : κ × α) (hp : p ∈ dictSet m k v) : p ∈ m ∨ p = (k, v) := by
  induction m with
  | nil =>
    simp only [dictSet, List.mem_singleton] at hp
    exact Or.inr hp
  | cons q rest ih =>
    rcases q with ⟨k', v'⟩
    unfold dictSet at hp
    by_cases h : k' = k
    · rw [if_pos h] at hp
      rcases List.mem_cons.mp hp with h1 | h1
      · exact Or.inr h1
      · exact Or.inl (List.mem_cons_of_mem _ h1)
    · rw [if_neg h] at hp
      rcases List.mem_cons.mp hp with h1 | h1
      · exact Or.inl (h1 ▸ List.mem_cons_self _ _)
      · rcases ih h1 with h2 | h2
        · exact Or.inl (List.mem_cons_of_mem _ h2)
        · exact Or.inr h2

theorem dictGet_dictSet_self {κ α : Type} [DecidableEq κ]
    (m : List (κ × α)) (k : κ) (v : α) :
    dictGet (dictSet m k v) k = some v := by
  induction m with
  | nil => simp [dictSet, dictGet]
  | cons q rest ih =>
    rcases q with ⟨k', v'⟩
    by_cases h : k' = k
    · simp [dictSet, dictGet, h]
    · simp [dictSet, dictGet, h, ih]

/-- Every binding the loop body produces has a key ending in `'/'` whose
component stores that key in its `path` field. -/
theorem buildComponent_good (cfg : Config) (isGitHash : PyStr → Bool)
    (cp val key : PyStr) (comp : Component) (igh : Bool)
    (h : buildComponent cfg isGitHash cp val = some (key, comp, igh)) :
    pyEndsWith key '/' = true ∧ comp.path = key := by
  unfold buildComponent at h
  rcases hs : splitRepoRevision val with _ | ⟨rep, rev⟩
  · rw [hs] at h
    simp at h
  · rw [hs] at h
    simp only [Option.some.injEq, Prod.mk.injEq] at h
    obtain ⟨hk, hc, -⟩ := h
    subst hk
    subst hc
    refine ⟨?_, rfl⟩
    by_cases he : pyEndsWith cp '/' = true
    · simp [he]
    · simp [he, pyEndsWith_append_slash]

theorem componentsLoop_good (cfg : Config) (isGitHash : PyStr → Bool)
    (l : List (PyStr × PyStr)) :
    ∀ (comps : List (PyStr × Component)) (b : Bool)
      (out : List (PyStr × Component)) (bout : Bool),
      (∀ p ∈ comps, pyEndsWith p.1 '/' = true ∧ p.2.path = p.1) →
      componentsLoop cfg isGitHash (comps, b) l = some (out, bout) →
      ∀ p ∈ out, pyEndsWith p.1 '/' = true ∧ p.2.path = p.1 := by
  induction l with
  | nil =>
    intro comps b out bout hinv h
    simp only [componentsLoop, Option.some.injEq, Prod.mk.injEq] at h
    obtain ⟨h1, -⟩ := h
    subst h1
    exact hinv
  | cons pv rest ih =>
    intro comps b out bout hinv h
    rcases pv with ⟨cp, val⟩
    unfold componentsLoop at h
    rcases hb : buildComponent cfg isGitHash cp val with _ | ⟨key, comp, igh⟩
    · rw [hb] at h
      simp at h
    · rw [hb] at h
      refine ih (dictSet comps key comp) igh out bout ?_ h
      intro q hq
      rcases dictSet_mem comps key comp q hq with h1 | h1
      · exact hinv q h1
      · rw [h1]
        exact buildComponent_good cfg isGitHash cp val key comp igh hb

/-- C10: whenever `GetChromiumComponents` succeeds, every key of the returned
map ends with `'/'` and equals the `path` field of its component, and the map
contains the key `src/`, whose component is named `chromium` and carries the
`chromium_revision` argument as its revision. -/
theorem GetChromiumComponents_keys (cfg : Config) (isGitHash : PyStr → Bool)
    (chromium_revision os_platform : PyStr)
    (deps : List (PyStr × PyStr))
    (deps_os : List (PyStr × List (PyStr × PyStr)))
    (m : List (PyStr × Component))
    (h : GetChromiumComponents cfg isGitHash chromium_revision os_platform
        deps deps_os = some m) :
    (∀ p ∈ m, pyEndsWith p.1 '/' = true ∧ p.2.path = p.1) ∧
    ∃ c, dictGet m "src/".data = some c ∧ c.name = "chromium".data ∧
      c.revision = chromium_revision := by
  simp only [GetChromiumComponents] at h
  rcases hl : componentsLoop cfg isGitHash ([], isGitHash chromium_revision)
      (allDeps (if pyLower os_platform = "linux".data then "unix".data
        else os_platform) deps deps_os) with _ | ⟨comps, bout⟩
  · rw [hl] at h
    simp at h
  · rw [hl] at h
    simp only [Option.map_some', Option.some.injEq] at h
    subst h
    have hinv := componentsLoop_good cfg isGitHash _ [] _ comps bout
      (by intro p hp; simp at hp) hl
    simp only [addChromium]
    constructor
    · intro p hp
      rcases dictSet_mem comps _ _ p hp with h1 | h1
      · exact hinv p h1
      · rw [h1]
        exact ⟨rfl, rfl⟩
    · exact ⟨_, dictGet_dictSet_self comps _ _, rfl, rfl⟩

/-- C10 (witness): one ordinary dependency plus the chromium entry. -/
theorem GetChromiumComponents_keys_witness :
    (∀ p ∈ [("a/b/".data,
        (⟨"a/b/".data, "a_b".data, "r".data, "svn".data, "5".data⟩ :
          Component)),
      ("src/".data,
        (⟨"src/".data, "chromium".data, "svn://s".data, "svn".data,
          "123".data⟩ : Component))],
      pyEndsWith p.1 '/' = true ∧ p.2.path = p.1) ∧
    ∃ c, dictGet [("a/b/".data,
        (⟨"a/b/".data, "a_b".data, "r".data, "svn".data, "5".data⟩ :
          Component)),
      ("src/".data,
        (⟨"src/".data, "chromium".data, "svn://s".data, "svn".data,
          "123".data⟩ : Component))] "src/".data = some c ∧
      c.name = "chromium".data ∧ c.revision = "123".data :=
  GetChromiumComponents_keys
    ⟨"git://g".data, "svn://s".data, "svn://c".data, ["src/".data]⟩
    (fun _ => false) "123".data "unix".data [("a/b".data, "r@5".data)] []
    _ (by decide)

end Deps
